import Mathlib

/-!
Verification of `yara_rule_tester.py` against its specification.

The program is a batch classification-evaluation harness: for each configured
identity (a proxy name, a ground-truth IP address and a YARA ruleset split
into `should_be_true` / `should_be_false` pattern files) it scans every stored
record, classifies it Positive iff the positive ruleset matches the payload
and the negative ruleset does not, accumulates a confusion matrix against the
ground-truth origin address, and reports precision / recall / F1.

The shallow embedding below mirrors the source:
* a compiled YARA rule is modelled as its matching behaviour, a function from
  a text payload to the list of matches it produces (`Rule`);
* the external compiler `yara.compile` is a parameter
  `compile : String → Except YaraErr Rule` (path to compiled rule or error);
* Python string/list truthiness is made explicit (`truthy`);
* Python integers are `ℤ`, Python true division is the fallible `pydiv`
  over `ℚ` (raising `ZeroDivisionError` on a zero denominator);
* `sys.exit(1)` on an error is modelled by the run returning `Except.error`
  with the printed diagnostic; printed per-record lines are collected in a
  transcript list.
-/

namespace YaraRuleTester

/-- The observable behaviour of one compiled YARA rule: for a text payload,
the list of match names `rule.match(data=text)` returns. -/
abbrev Rule := String → List String

/-- `scan_text(rules, text)` from the source: starts with an empty `matches`
list and extends it with each rule's matches. -/
def scan_text (rules : List Rule) (text : String) : List String :=
  rules.foldl (fun acc rule => acc ++ rule text) []

/-- A row of the `ssl_logs` table as fetched by the source:
`SELECT rowid, id, headers, ip`.  The `headers` payload may be SQL NULL
(`none`) or any string, including the empty one. -/
structure Record where
  rowid : ℤ
  id_text : String
  headers_text : Option String
  ip_text : String

/-- Python truthiness of the fetched `headers` column: `None` and the empty
string are falsy, every other string is truthy (`if headers_text:`). -/
def truthy : Option String → Bool
  | none => false
  | some s => s ≠ ""

/-- The payload text actually scanned (only used on truthy payloads). -/
def textOf : Option String → String
  | none => ""
  | some s => s

/-- Binary detection outcome of the classifier. -/
inductive Outcome where
  | Positive
  | Negative
deriving DecidableEq

/-- The classifier, the branch condition
`if matches_true and not matches_false:` of the source: Positive iff the
positive rules produced at least one match and the negative rules produced
none (Python truthiness of the two match lists). -/
def classify (rules_true rules_false : List Rule) (text : String) : Outcome :=
  if scan_text rules_true text ≠ [] ∧ scan_text rules_false text = [] then
    Outcome.Positive
  else
    Outcome.Negative

/-- Boolean view of an outcome. -/
def isPositive : Outcome → Bool
  | Outcome.Positive => true
  | Outcome.Negative => false

/-- The six running counters of one identity's pass
(lines 71–76 of the source), as Python integers. -/
structure Counters where
  total : ℤ
  total_from_proxy : ℤ
  total_not_from_proxy : ℤ
  fail : ℤ
  fail_from_proxy : ℤ
  fail_not_from_proxy : ℤ
deriving DecidableEq

/-- All counters start at zero. -/
def initCounters : Counters :=
  { total := 0, total_from_proxy := 0, total_not_from_proxy := 0,
    fail := 0, fail_from_proxy := 0, fail_not_from_proxy := 0 }

/-- `print_list` from the source: emits one line when the active category
filter equals the given flag (`list_flag == flag`; a `None` filter matches
nothing). -/
def print_list (list_flag : Option String) (flag id_text headers_text proxy_detected : String) :
    List String :=
  if list_flag = some flag then
    [s!"{flag} on id: {id_text}: Detected as {proxy_detected}\n{headers_text}\n"]
  else
    []

/-- The verbose line printed in the false-positive branch. -/
def fpVerboseLine (id_text px text : String) : String :=
  s!"Failure on id: {id_text}: Detected as {px} but request was not from proxy\n{text}\n"

/-- The verbose line printed in the true-positive branch. -/
def tpVerboseLine (id_text px text : String) : String :=
  s!"Success on id: {id_text}: Detected as {px}\n{text}\n"

/-- The verbose line printed in the false-negative branch. -/
def fnVerboseLine (id_text px text : String) : String :=
  s!"Failure on id: {id_text}: Detected as {px} but request was from proxy\n{text}\n"

/-- The body of the record loop (lines 77–106 of the source) for one record:
updates the counters and appends any verbose / category-filter output to the
transcript.  `gt` is `ips[i]` (the identity's ground-truth address), `px` is
`proxies[i]` (its display name). -/
def processRecord (verbose : Bool) (list_flag : Option String)
    (rules_true rules_false : List Rule) (gt px : String)
    (s : Counters × List String) (r : Record) : Counters × List String :=
  let c := s.1
  let out := s.2
  let s' :=
    if truthy r.headers_text then
      let text := textOf r.headers_text
      match classify rules_true rules_false text with
      | Outcome.Positive =>
        if r.ip_text ≠ gt then
          ({ c with fail := c.fail + 1,
                    fail_not_from_proxy := c.fail_not_from_proxy + 1,
                    total_not_from_proxy := c.total_not_from_proxy + 1 },
           out ++ (if verbose then [fpVerboseLine r.id_text px text] else [])
               ++ print_list list_flag "FP" r.id_text text px)
        else
          ({ c with total_from_proxy := c.total_from_proxy + 1 },
           out ++ (if verbose then [tpVerboseLine r.id_text px text] else [])
               ++ print_list list_flag "TP" r.id_text text px)
      | Outcome.Negative =>
        if r.ip_text = gt then
          ({ c with fail := c.fail + 1,
                    fail_from_proxy := c.fail_from_proxy + 1,
                    total_from_proxy := c.total_from_proxy + 1 },
           out ++ (if verbose then [fnVerboseLine r.id_text px text] else [])
               ++ print_list list_flag "FN" r.id_text text px)
        else
          ({ c with total_not_from_proxy := c.total_not_from_proxy + 1 },
           out ++ print_list list_flag "TN" r.id_text text px)
    else
      (c, out)
  ({ s'.1 with total := s'.1.total + 1 }, s'.2)

/-- One identity's full pass over the fetched rows: fold the record loop over
the row list starting from zeroed counters and an empty transcript. -/
def runPass (verbose : Bool) (list_flag : Option String)
    (rules_true rules_false : List Rule) (gt px : String)
    (rows : List Record) : Counters × List String :=
  rows.foldl (processRecord verbose list_flag rules_true rules_false gt px)
    (initCounters, [])

/-- The finalized confusion matrix (lines 108–111 of the source). -/
structure Matrix where
  TP : ℤ
  FP : ℤ
  TN : ℤ
  FN : ℤ
deriving DecidableEq

/-- `TP = total_from_proxy - fail_from_proxy`, `FP = fail_not_from_proxy`,
`TN = total_not_from_proxy - fail_not_from_proxy`, `FN = fail_from_proxy`. -/
def finalizeMatrix (c : Counters) : Matrix :=
  { TP := c.total_from_proxy - c.fail_from_proxy,
    FP := c.fail_not_from_proxy,
    TN := c.total_not_from_proxy - c.fail_not_from_proxy,
    FN := c.fail_from_proxy }

/-- Python true division on the exact values, fallible: a zero denominator
raises `ZeroDivisionError`. -/
def pydiv (a b : ℚ) : Except String ℚ :=
  if b = 0 then Except.error "ZeroDivisionError: division by zero"
  else Except.ok (a / b)

/-- Line 114 of the source:
`precision = TP / (TP + FP) if (TP + FP) > 0 else 0`. -/
def precisionCalc (m : Matrix) : Except String ℚ :=
  if m.TP + m.FP > 0 then pydiv (m.TP : ℚ) ((m.TP + m.FP : ℤ) : ℚ) else Except.ok 0

/-- Line 115 of the source:
`recall = TP / (TP + FN) if (TP + FN) > 0 else 0`. -/
def recallCalc (m : Matrix) : Except String ℚ :=
  if m.TP + m.FN > 0 then pydiv (m.TP : ℚ) ((m.TP + m.FN : ℤ) : ℚ) else Except.ok 0

/-- Line 116 of the source: `f1_score = 2 * (precision * recall) /
(precision + recall) if (precision + recall) > 0 else 0`. -/
def f1Calc (p r : ℚ) : Except String ℚ :=
  if p + r > 0 then pydiv (2 * (p * r)) (p + r) else Except.ok 0

/-- The spec's formula for precision (§4.2 of the spec):
`TP/(TP+FP)` if the denominator is positive, else the value `0`. -/
def spec_precision (m : Matrix) : ℚ :=
  if m.TP + m.FP > 0 then (m.TP : ℚ) / ((m.TP : ℚ) + (m.FP : ℚ)) else 0

/-- The spec's formula for recall (§4.2 of the spec):
`TP/(TP+FN)` if the denominator is positive, else the value `0`. -/
def spec_recall (m : Matrix) : ℚ :=
  if m.TP + m.FN > 0 then (m.TP : ℚ) / ((m.TP : ℚ) + (m.FN : ℚ)) else 0

/-- The spec's formula for F1 (§4.2 of the spec):
`2·P·R/(P+R)` if `P+R > 0`, else the value `0`. -/
def spec_f1 (p r : ℚ) : ℚ :=
  if p + r > 0 then 2 * p * r / (p + r) else 0

/-- The per-identity summary block (lines 108–129 of the source): the
finalized matrix, the derived metrics, and the four percentage figures
`100 * cell / total` of the report — the percentages divide by `total`
without a guard, so building the report is fallible. -/
structure Report where
  proxy : String
  total : ℤ
  matrix : Matrix
  precision : ℚ
  recallVal : ℚ
  f1_score : ℚ
  tp_pct : ℚ
  fp_pct : ℚ
  tn_pct : ℚ
  fn_pct : ℚ
deriving DecidableEq

/-- Finalize one identity's counters into its report, in source order:
matrix, precision, recall, F1, then the four percentages (which divide by
`total` unguarded). -/
def makeReport (px : String) (c : Counters) : Except String Report := do
  let m := finalizeMatrix c
  let p ← precisionCalc m
  let r ← recallCalc m
  let f ← f1Calc p r
  let tpPct ← pydiv (100 * (m.TP : ℚ)) ((c.total : ℤ) : ℚ)
  let fpPct ← pydiv (100 * (m.FP : ℚ)) ((c.total : ℤ) : ℚ)
  let tnPct ← pydiv (100 * (m.TN : ℚ)) ((c.total : ℤ) : ℚ)
  let fnPct ← pydiv (100 * (m.FN : ℚ)) ((c.total : ℤ) : ℚ)
  Except.ok
    { proxy := px, total := c.total, matrix := m,
      precision := p, recallVal := r, f1_score := f,
      tp_pct := tpPct, fp_pct := fpPct, tn_pct := tnPct, fn_pct := fnPct }

/-- A compilation failure of the external `yara.compile`: the source
distinguishes `yara.SyntaxError` from the general `yara.Error`. -/
inductive YaraErr where
  | syntaxErr (msg : String)
  | otherErr (msg : String)
deriving DecidableEq

/-- The diagnostic `load_yara_rules` prints before exiting (lines 31–36 of
the source): a syntax error and any other compile error get distinct
prefixes. -/
def yaraDiag : YaraErr → String
  | YaraErr.syntaxErr msg => "YARA syntax error: " ++ msg
  | YaraErr.otherErr msg => "YARA error: " ++ msg

/-- `load_yara_rules` from the source: compiles each path in order; the
first failure prints its diagnostic and exits the whole run
(`sys.exit(1)`), modelled as an `Except.error` carrying the diagnostic. -/
def load_yara_rules (compile : String → Except YaraErr Rule) :
    List String → Except String (List Rule)
  | [] => Except.ok []
  | path :: paths =>
    match compile path with
    | Except.ok rule =>
      match load_yara_rules compile paths with
      | Except.ok rules => Except.ok (rule :: rules)
      | Except.error msg => Except.error msg
    | Except.error e => Except.error (yaraDiag e)

/-- One identity's ruleset paths from the configuration:
`yara_ruleset: { should_be_true: [...], should_be_false: [...] }`; a missing
`should_be_false` is already the empty list
(`ruleset_paths.get('should_be_false', [])`). -/
structure RulesetPaths where
  should_be_true : List String
  should_be_false : List String
deriving DecidableEq

/-- One entry of the configuration's `proxies` list; `parse_config` splits
the entries into the parallel lists `ips`, `proxies`, `rules` which the scan
loop indexes in step, so an entry bundles one index's worth of all three. -/
structure IdentityCfg where
  ip : String
  proxy : String
  ruleset : RulesetPaths
deriving DecidableEq

/-- Python truthiness of the `specific_proxy` global: `None` and the empty
string are falsy. -/
def strTruthy : Option String → Bool
  | none => false
  | some s => s ≠ ""

/-- Line 65 of the source:
`if specific_proxy and proxies[i].lower() != specific_proxy.lower(): continue`.
`true` means the identity is skipped. -/
def skipIdentity (specific_proxy : Option String) (proxyName : String) : Bool :=
  strTruthy specific_proxy &&
    proxyName.toLower ≠ (specific_proxy.getD "").toLower

/-- The identity loop of `scan_sqlite_database` (lines 64–129 of the source)
over already-fetched rows: for each configured identity in order, apply the
proxy filter; if kept, compile its two rulesets (aborting the run on the
first compile error), run the record pass, and build the report.  The result
pairs each evaluated identity's printed per-record transcript with its
report; an error aborts the whole run with the diagnostic. -/
def scan_sqlite_database (compile : String → Except YaraErr Rule)
    (verbose : Bool) (list_flag specific_proxy : Option String)
    (rows : List Record) :
    List IdentityCfg → Except String (List (List String × Report))
  | [] => Except.ok []
  | idc :: rest =>
    if skipIdentity specific_proxy idc.proxy then
      scan_sqlite_database compile verbose list_flag specific_proxy rows rest
    else do
      let rules_true ← load_yara_rules compile idc.ruleset.should_be_true
      let rules_false ← load_yara_rules compile idc.ruleset.should_be_false
      let s := runPass verbose list_flag rules_true rules_false idc.ip idc.proxy rows
      let rep ← makeReport idc.proxy s.1
      let rest' ← scan_sqlite_database compile verbose list_flag specific_proxy rows rest
      Except.ok ((s.2, rep) :: rest')

/-- The usage line printed when fewer than two positional arguments are
supplied (line 137 of the source). -/
def usageMsg : String :=
  "Usage: python yara_rule_tester.py <sqlite_db_file> <config_file> [-v] [flag=<tp|fp|tn|fn>] [proxy=<proxy_name>]"

/-- The parsed optional command-line settings (the module-level globals). -/
structure CliOptions where
  verbose : Bool
  list_flag : Option String
  specific_proxy : Option String
deriving DecidableEq

/-- The option loop over `sys.argv[3:]` (lines 142–149 of the source):
`-v` sets verbose, `flag=X` sets the category filter to `X` upper-cased,
`proxy=X` sets the proxy filter. -/
def parseOptions (args : List String) : CliOptions :=
  args.foldl
    (fun opts arg =>
      if arg = "-v" then { opts with verbose := true }
      else if arg.startsWith "flag=" then
        { opts with list_flag := some ((arg.splitOn "=").getD 1 "").toUpper }
      else if arg.startsWith "proxy=" then
        { opts with specific_proxy := some ((arg.splitOn "=").getD 1 "") }
      else opts)
    { verbose := false, list_flag := none, specific_proxy := none }

/-- The module-level entry (lines 136–151 of the source) on an argument
vector `argv` (including `argv[0]`, the program name): with fewer than three
elements, print the usage message and exit with code 1 before touching the
configuration, any ruleset or the store; otherwise parse the options and run
the scan.  The external configuration parse and row fetch are the parameters
`parseCfg` and `rows`; an aborted run carries its diagnostic and a non-zero
exit code. -/
def mainModel (argv : List String) (compile : String → Except YaraErr Rule)
    (rows : List Record) (parseCfg : String → List IdentityCfg) :
    Except (String × ℕ) (List (List String × Report)) :=
  if argv.length < 3 then
    Except.error (usageMsg, 1)
  else
    let opts := parseOptions (argv.drop 3)
    match scan_sqlite_database compile opts.verbose opts.list_flag
        opts.specific_proxy rows (parseCfg (argv.getD 2 "")) with
    | Except.ok reports => Except.ok reports
    | Except.error msg => Except.error (msg, 1)

/-- A record belongs to the identity: its origin address equals the
ground-truth address exactly (Python `==`, case-sensitive). -/
def belongs (gt : String) (r : Record) : Bool := r.ip_text == gt

/-- The record's payload is classified Positive by the identity's rulesets. -/
def detectedPos (rules_true rules_false : List Rule) (r : Record) : Bool :=
  isPositive (classify rules_true rules_false (textOf r.headers_text))

section Lemmas

lemma scan_text_foldl_acc (text : String) (rules : List Rule) (acc : List String) :
    rules.foldl (fun a rule => a ++ rule text) acc = []
      ↔ acc = [] ∧ ∀ r ∈ rules, r text = [] := by
  induction rules generalizing acc with
  | nil => simp
  | cons rule rules ih =>
    simp only [List.foldl_cons, ih, List.append_eq_nil, List.mem_cons]
    constructor
    · rintro ⟨⟨h1, h2⟩, h3⟩
      exact ⟨h1, fun r hr => by rcases hr with rfl | hr; exact h2; exact h3 r hr⟩
    · rintro ⟨h1, h2⟩
      exact ⟨⟨h1, h2 rule (Or.inl rfl)⟩, fun r hr => h2 r (Or.inr hr)⟩

lemma scan_text_eq_nil_iff (rules : List Rule) (text : String) :
    scan_text rules text = [] ↔ ∀ r ∈ rules, r text = [] := by
  unfold scan_text
  rw [scan_text_foldl_acc]
  simp

lemma classify_eq_Positive_iff (rules_true rules_false : List Rule) (text : String) :
    classify rules_true rules_false text = Outcome.Positive
      ↔ scan_text rules_true text ≠ [] ∧ scan_text rules_false text = [] := by
  unfold classify
  split
  · simp_all
  · simp_all

lemma processRecord_fst (v : Bool) (lf : Option String) (rt rf : List Rule)
    (gt px : String) (c : Counters) (out : List String) (r : Record) :
    (processRecord v lf rt rf gt px (c, out) r).1 =
      { total := c.total + 1,
        total_from_proxy := c.total_from_proxy +
          (if truthy r.headers_text && belongs gt r then 1 else 0),
        total_not_from_proxy := c.total_not_from_proxy +
          (if truthy r.headers_text && !belongs gt r then 1 else 0),
        fail := c.fail +
          (if truthy r.headers_text && (detectedPos rt rf r != belongs gt r) then 1 else 0),
        fail_from_proxy := c.fail_from_proxy +
          (if truthy r.headers_text && !detectedPos rt rf r && belongs gt r then 1 else 0),
        fail_not_from_proxy := c.fail_not_from_proxy +
          (if truthy r.headers_text && detectedPos rt rf r && !belongs gt r then 1 else 0) } := by
  unfold processRecord
  by_cases ht : truthy r.headers_text
  · cases hcl : classify rt rf (textOf r.headers_text) with
    | Positive =>
      by_cases hip : r.ip_text = gt <;>
        simp [ht, hcl, hip, detectedPos, isPositive, belongs]
    | Negative =>
      by_cases hip : r.ip_text = gt <;>
        simp [ht, hcl, hip, detectedPos, isPositive, belongs]
  · simp [ht]

lemma foldl_processRecord_fst (v : Bool) (lf : Option String) (rt rf : List Rule)
    (gt px : String) (rows : List Record) (c : Counters) (out : List String) :
    (rows.foldl (processRecord v lf rt rf gt px) (c, out)).1 =
      { total := c.total + rows.length,
        total_from_proxy := c.total_from_proxy +
          rows.countP (fun r => truthy r.headers_text && belongs gt r),
        total_not_from_proxy := c.total_not_from_proxy +
          rows.countP (fun r => truthy r.headers_text && !belongs gt r),
        fail := c.fail +
          rows.countP (fun r => truthy r.headers_text && (detectedPos rt rf r != belongs gt r)),
        fail_from_proxy := c.fail_from_proxy +
          rows.countP (fun r => truthy r.headers_text && !detectedPos rt rf r && belongs gt r),
        fail_not_from_proxy := c.fail_not_from_proxy +
          rows.countP (fun r => truthy r.headers_text && detectedPos rt rf r && !belongs gt r) } := by
  induction rows generalizing c out with
  | nil => cases c; simp
  | cons r rows ih =>
    rw [List.foldl_cons]
    rcases hp : processRecord v lf rt rf gt px (c, out) r with ⟨c', out'⟩
    rw [ih]
    have hc' : c' =
        { total := c.total + 1,
          total_from_proxy := c.total_from_proxy +
            (if truthy r.headers_text && belongs gt r then 1 else 0),
          total_not_from_proxy := c.total_not_from_proxy +
            (if truthy r.headers_text && !belongs gt r then 1 else 0),
          fail := c.fail +
            (if truthy r.headers_text && (detectedPos rt rf r != belongs gt r) then 1 else 0),
          fail_from_proxy := c.fail_from_proxy +
            (if truthy r.headers_text && !detectedPos rt rf r && belongs gt r then 1 else 0),
          fail_not_from_proxy := c.fail_not_from_proxy +
            (if truthy r.headers_text && detectedPos rt rf r && !belongs gt r then 1 else 0) } := by
      have h := processRecord_fst v lf rt rf gt px c out r
      rw [hp] at h
      simpa using h
    subst hc'
    simp only [List.countP_cons, List.length_cons, Counters.mk.injEq]
    refine ⟨?_, ?_, ?_, ?_, ?_, ?_⟩ <;> (try split_ifs) <;> (push_cast; omega)

lemma runPass_fst (v : Bool) (lf : Option String) (rt rf : List Rule)
    (gt px : String) (rows : List Record) :
    (runPass v lf rt rf gt px rows).1 =
      { total := rows.length,
        total_from_proxy :=
          rows.countP (fun r => truthy r.headers_text && belongs gt r),
        total_not_from_proxy :=
          rows.countP (fun r => truthy r.headers_text && !belongs gt r),
        fail :=
          rows.countP (fun r => truthy r.headers_text && (detectedPos rt rf r != belongs gt r)),
        fail_from_proxy :=
          rows.countP (fun r => truthy r.headers_text && !detectedPos rt rf r && belongs gt r),
        fail_not_from_proxy :=
          rows.countP (fun r => truthy r.headers_text && detectedPos rt rf r && !belongs gt r) } := by
  unfold runPass
  rw [foldl_processRecord_fst]
  simp [initCounters]

lemma countP_belongs_split (rt rf : List Rule) (gt : String) (rows : List Record) :
    rows.countP (fun r => truthy r.headers_text && belongs gt r)
      = rows.countP (fun r => truthy r.headers_text && detectedPos rt rf r && belongs gt r)
      + rows.countP (fun r => truthy r.headers_text && !detectedPos rt rf r && belongs gt r) := by
  induction rows with
  | nil => simp
  | cons x l ih =>
    simp only [List.countP_cons, ih]
    cases h1 : truthy x.headers_text <;> cases h2 : detectedPos rt rf x <;>
      cases h3 : belongs gt x <;> simp [h1, h2, h3] <;> omega

lemma countP_notbelongs_split (rt rf : List Rule) (gt : String) (rows : List Record) :
    rows.countP (fun r => truthy r.headers_text && !belongs gt r)
      = rows.countP (fun r => truthy r.headers_text && detectedPos rt rf r && !belongs gt r)
      + rows.countP (fun r => truthy r.headers_text && !detectedPos rt rf r && !belongs gt r) := by
  induction rows with
  | nil => simp
  | cons x l ih =>
    simp only [List.countP_cons, ih]
    cases h1 : truthy x.headers_text <;> cases h2 : detectedPos rt rf x <;>
      cases h3 : belongs gt x <;> simp [h1, h2, h3] <;> omega

lemma finalize_runPass (v : Bool) (lf : Option String) (rt rf : List Rule)
    (gt px : String) (rows : List Record) :
    finalizeMatrix (runPass v lf rt rf gt px rows).1 =
      { TP := rows.countP (fun r => truthy r.headers_text && detectedPos rt rf r && belongs gt r),
        FP := rows.countP (fun r => truthy r.headers_text && detectedPos rt rf r && !belongs gt r),
        TN := rows.countP (fun r => truthy r.headers_text && !detectedPos rt rf r && !belongs gt r),
        FN := rows.countP (fun r => truthy r.headers_text && !detectedPos rt rf r && belongs gt r) } := by
  rw [runPass_fst]
  have h1 := countP_belongs_split rt rf gt rows
  have h2 := countP_notbelongs_split rt rf gt rows
  simp only [finalizeMatrix, Matrix.mk.injEq]
  refine ⟨by omega, trivial, by omega, trivial⟩

lemma precisionCalc_eq (m : Matrix) : precisionCalc m = Except.ok (spec_precision m) := by
  unfold precisionCalc spec_precision pydiv
  split
  · next h =>
    rw [if_neg (by exact_mod_cast (by omega : (m.TP + m.FP : ℤ) ≠ 0))]
    norm_num
  · rfl

lemma recallCalc_eq (m : Matrix) : recallCalc m = Except.ok (spec_recall m) := by
  unfold recallCalc spec_recall pydiv
  split
  · next h =>
    rw [if_neg (by exact_mod_cast (by omega : (m.TP + m.FN : ℤ) ≠ 0))]
    norm_num
  · rfl

lemma f1Calc_eq (p r : ℚ) : f1Calc p r = Except.ok (spec_f1 p r) := by
  unfold f1Calc spec_f1 pydiv
  split
  · next h =>
    rw [if_neg (by exact (ne_of_gt h))]
    ring_nf
  · rfl

lemma spec_precision_mem (m : Matrix) (hTP : 0 ≤ m.TP) (hFP : 0 ≤ m.FP) :
    0 ≤ spec_precision m ∧ spec_precision m ≤ 1 := by
  unfold spec_precision
  split
  · next h =>
    have hd : (0 : ℚ) < (m.TP : ℚ) + (m.FP : ℚ) := by exact_mod_cast (by omega : (0:ℤ) < m.TP + m.FP)
    constructor
    · exact div_nonneg (by exact_mod_cast hTP) (le_of_lt hd)
    · rw [div_le_one hd]
      have : (0 : ℚ) ≤ (m.FP : ℚ) := by exact_mod_cast hFP
      linarith
  · norm_num

lemma spec_recall_mem (m : Matrix) (hTP : 0 ≤ m.TP) (hFN : 0 ≤ m.FN) :
    0 ≤ spec_recall m ∧ spec_recall m ≤ 1 := by
  unfold spec_recall
  split
  · next h =>
    have hd : (0 : ℚ) < (m.TP : ℚ) + (m.FN : ℚ) := by exact_mod_cast (by omega : (0:ℤ) < m.TP + m.FN)
    constructor
    · exact div_nonneg (by exact_mod_cast hTP) (le_of_lt hd)
    · rw [div_le_one hd]
      have : (0 : ℚ) ≤ (m.FN : ℚ) := by exact_mod_cast hFN
      linarith
  · norm_num

lemma spec_f1_mem (p r : ℚ) (hp0 : 0 ≤ p) (hp1 : p ≤ 1) (hr0 : 0 ≤ r) (hr1 : r ≤ 1) :
    0 ≤ spec_f1 p r ∧ spec_f1 p r ≤ 1 := by
  unfold spec_f1
  split
  · next h =>
    constructor
    · exact div_nonneg (by positivity) (le_of_lt h)
    · rw [div_le_one h]
      nlinarith [mul_nonneg hp0 (sub_nonneg.mpr hr1), mul_nonneg hr0 (sub_nonneg.mpr hp1)]
  · norm_num

lemma countP_truthy_belongs_split (gt : String) (rows : List Record) :
    rows.countP (fun r => truthy r.headers_text)
      = rows.countP (fun r => truthy r.headers_text && belongs gt r)
      + rows.countP (fun r => truthy r.headers_text && !belongs gt r) := by
  induction rows with
  | nil => simp
  | cons x l ih =>
    simp only [List.countP_cons, ih]
    cases h1 : truthy x.headers_text <;> cases h3 : belongs gt x <;> simp [h1, h3] <;> omega

lemma countP_truthy_add (rows : List Record) :
    rows.countP (fun r => truthy r.headers_text)
      + rows.countP (fun r => !truthy r.headers_text) = rows.length := by
  induction rows with
  | nil => simp
  | cons x l ih =>
    simp only [List.countP_cons, List.length_cons]
    cases h1 : truthy x.headers_text <;> simp [h1] <;> omega

end Lemmas

section Claims

/-- C1: For every pair of pattern sets (positive, negative) and every
non-empty payload, the classifier's outcome is Positive iff the positive
pattern set has at least one match against the payload and the negative
pattern set has no match; in every other case the outcome is Negative. -/
theorem c1_classifier_outcome (rules_true rules_false : List Rule)
    (payload : String) (hpay : payload ≠ "") :
    (classify rules_true rules_false payload = Outcome.Positive
        ↔ (∃ r ∈ rules_true, r payload ≠ []) ∧ ∀ r ∈ rules_false, r payload = [])
    ∧ (classify rules_true rules_false payload = Outcome.Negative
        ↔ ¬((∃ r ∈ rules_true, r payload ≠ []) ∧ ∀ r ∈ rules_false, r payload = [])) := by
  have hchar : scan_text rules_true payload ≠ [] ↔ ∃ r ∈ rules_true, r payload ≠ [] := by
    rw [Ne, scan_text_eq_nil_iff]
    push_neg
    rfl
  have hmain : classify rules_true rules_false payload = Outcome.Positive
      ↔ (∃ r ∈ rules_true, r payload ≠ []) ∧ ∀ r ∈ rules_false, r payload = [] := by
    rw [classify_eq_Positive_iff, hchar, scan_text_eq_nil_iff]
  have hneg : ∀ o : Outcome, o = Outcome.Negative ↔ ¬(o = Outcome.Positive) := by
    intro o
    cases o <;> simp
  exact ⟨hmain, by rw [hneg, hmain]⟩

/-- A demonstration rule that matches exactly the payload `"proxyheader"`. -/
def demoRuleHit : Rule := fun t => if t = "proxyheader" then ["hit"] else []

/-- A demonstration rule that never matches. -/
def demoRuleMiss : Rule := fun _ => []

/-- Witness for C1 at concrete inputs. -/
theorem c1_classifier_outcome_witness :
    (classify [demoRuleHit] [demoRuleMiss] "proxyheader" = Outcome.Positive
        ↔ (∃ r ∈ [demoRuleHit], r "proxyheader" ≠ []) ∧
          ∀ r ∈ [demoRuleMiss], r "proxyheader" = [])
    ∧ (classify [demoRuleHit] [demoRuleMiss] "proxyheader" = Outcome.Negative
        ↔ ¬((∃ r ∈ [demoRuleHit], r "proxyheader" ≠ []) ∧
          ∀ r ∈ [demoRuleMiss], r "proxyheader" = [])) :=
  c1_classifier_outcome [demoRuleHit] [demoRuleMiss] "proxyheader" (by decide)

/-- C2: In an identity's pass, every non-empty-payload record lands in
exactly one confusion-matrix cell following the table (Positive/equal → TP,
Positive/unequal → FP, Negative/equal → FN, Negative/unequal → TN): the
finalized `TP = total_from_proxy - fail_from_proxy` equals the number of
records classified Positive whose origin equals the ground-truth address
(case-sensitively), and likewise for the other three cells. -/
theorem c2_confusion_cells (v : Bool) (lf : Option String) (rt rf : List Rule)
    (gt px : String) (rows : List Record) :
    finalizeMatrix (runPass v lf rt rf gt px rows).1 =
      { TP := rows.countP (fun r => truthy r.headers_text &&
                isPositive (classify rt rf (textOf r.headers_text)) && (r.ip_text == gt)),
        FP := rows.countP (fun r => truthy r.headers_text &&
                isPositive (classify rt rf (textOf r.headers_text)) && !(r.ip_text == gt)),
        TN := rows.countP (fun r => truthy r.headers_text &&
                !isPositive (classify rt rf (textOf r.headers_text)) && !(r.ip_text == gt)),
        FN := rows.countP (fun r => truthy r.headers_text &&
                !isPositive (classify rt rf (textOf r.headers_text)) && (r.ip_text == gt)) } :=
  finalize_runPass v lf rt rf gt px rows

/-- C3: The derived metrics are exactly the spec's guarded formulas; the
zero-denominator cases yield the value 0 and the computation never raises
(the division is always the `Except.ok` branch of `pydiv`). -/
theorem c3_metrics_formulas (m : Matrix) :
    precisionCalc m = Except.ok (spec_precision m)
    ∧ recallCalc m = Except.ok (spec_recall m)
    ∧ f1Calc (spec_precision m) (spec_recall m)
        = Except.ok (spec_f1 (spec_precision m) (spec_recall m)) :=
  ⟨precisionCalc_eq m, recallCalc_eq m,
    f1Calc_eq (spec_precision m) (spec_recall m)⟩

/-- C4: Records with an empty or absent payload increment the running total
but no confusion-matrix cell; the cell sum equals the number of
truthy-payload records, is at most the total, and the deficit is exactly the
number of empty/absent-payload records. -/
theorem c4_empty_payload_policy (v : Bool) (lf : Option String)
    (rt rf : List Rule) (gt px : String) (rows : List Record) :
    (runPass v lf rt rf gt px rows).1.total = rows.length
    ∧ (finalizeMatrix (runPass v lf rt rf gt px rows).1).TP
        + (finalizeMatrix (runPass v lf rt rf gt px rows).1).FP
        + (finalizeMatrix (runPass v lf rt rf gt px rows).1).TN
        + (finalizeMatrix (runPass v lf rt rf gt px rows).1).FN
        = rows.countP (fun r => truthy r.headers_text)
    ∧ (finalizeMatrix (runPass v lf rt rf gt px rows).1).TP
        + (finalizeMatrix (runPass v lf rt rf gt px rows).1).FP
        + (finalizeMatrix (runPass v lf rt rf gt px rows).1).TN
        + (finalizeMatrix (runPass v lf rt rf gt px rows).1).FN
        ≤ (runPass v lf rt rf gt px rows).1.total
    ∧ (runPass v lf rt rf gt px rows).1.total
        - ((finalizeMatrix (runPass v lf rt rf gt px rows).1).TP
            + (finalizeMatrix (runPass v lf rt rf gt px rows).1).FP
            + (finalizeMatrix (runPass v lf rt rf gt px rows).1).TN
            + (finalizeMatrix (runPass v lf rt rf gt px rows).1).FN)
        = rows.countP (fun r => !truthy r.headers_text) := by
  rw [finalize_runPass, runPass_fst]
  have h1 := countP_belongs_split rt rf gt rows
  have h2 := countP_notbelongs_split rt rf gt rows
  have h3 := countP_truthy_belongs_split gt rows
  have h4 := countP_truthy_add rows
  have h5 : rows.countP (fun r => truthy r.headers_text) ≤ rows.length := by omega
  refine ⟨rfl, by simp only; omega, by simp only; omega, by simp only; omega⟩

/-- C5: The four finalized confusion-matrix cells are non-negative (in
particular `total_from_proxy - fail_from_proxy ≥ 0` and
`total_not_from_proxy - fail_not_from_proxy ≥ 0`), and the derived
precision, recall and F1 values all lie in `[0, 1]`. -/
theorem c5_cells_nonneg_metrics_bounded (v : Bool) (lf : Option String)
    (rt rf : List Rule) (gt px : String) (rows : List Record) :
    0 ≤ (finalizeMatrix (runPass v lf rt rf gt px rows).1).TP
    ∧ 0 ≤ (finalizeMatrix (runPass v lf rt rf gt px rows).1).FP
    ∧ 0 ≤ (finalizeMatrix (runPass v lf rt rf gt px rows).1).TN
    ∧ 0 ≤ (finalizeMatrix (runPass v lf rt rf gt px rows).1).FN
    ∧ ∃ p r f,
        precisionCalc (finalizeMatrix (runPass v lf rt rf gt px rows).1) = Except.ok p
        ∧ recallCalc (finalizeMatrix (runPass v lf rt rf gt px rows).1) = Except.ok r
        ∧ f1Calc p r = Except.ok f
        ∧ 0 ≤ p ∧ p ≤ 1 ∧ 0 ≤ r ∧ r ≤ 1 ∧ 0 ≤ f ∧ f ≤ 1 := by
  have hm := finalize_runPass v lf rt rf gt px rows
  have hTP : 0 ≤ (finalizeMatrix (runPass v lf rt rf gt px rows).1).TP := by
    rw [hm]; exact Int.ofNat_nonneg _
  have hFP : 0 ≤ (finalizeMatrix (runPass v lf rt rf gt px rows).1).FP := by
    rw [hm]; exact Int.ofNat_nonneg _
  have hTN : 0 ≤ (finalizeMatrix (runPass v lf rt rf gt px rows).1).TN := by
    rw [hm]; exact Int.ofNat_nonneg _
  have hFN : 0 ≤ (finalizeMatrix (runPass v lf rt rf gt px rows).1).FN := by
    rw [hm]; exact Int.ofNat_nonneg _
  have hp := spec_precision_mem (finalizeMatrix (runPass v lf rt rf gt px rows).1) hTP hFP
  have hr := spec_recall_mem (finalizeMatrix (runPass v lf rt rf gt px rows).1) hTP hFN
  have hf := spec_f1_mem _ _ hp.1 hp.2 hr.1 hr.2
  exact ⟨hTP, hFP, hTN, hFN, spec_precision _, spec_recall _, spec_f1 _ _,
    precisionCalc_eq _, recallCalc_eq _, f1Calc_eq _ _,
    hp.1, hp.2, hr.1, hr.2, hf.1, hf.2⟩

/-- C6: With a non-empty proxy-name filter, an identity is evaluated iff its
proxy name equals the filter value case-insensitively; non-matching
identities are skipped entirely — the filtered run equals the unfiltered run
over exactly the matching identities, in configuration order. -/
theorem c6_proxy_name_filter (compile : String → Except YaraErr Rule)
    (v : Bool) (lf : Option String) (f : String) (rows : List Record)
    (ids : List IdentityCfg) (hf : f ≠ "") :
    (∀ name : String, skipIdentity (some f) name = false ↔ name.toLower = f.toLower)
    ∧ scan_sqlite_database compile v lf (some f) rows ids
        = scan_sqlite_database compile v lf none rows
            (ids.filter (fun idc => idc.proxy.toLower == f.toLower)) := by
  have hchar : ∀ name : String,
      skipIdentity (some f) name = false ↔ name.toLower = f.toLower := by
    intro name
    simp [skipIdentity, strTruthy, hf]
  refine ⟨hchar, ?_⟩
  induction ids with
  | nil => simp [scan_sqlite_database]
  | cons idc rest ih =>
    by_cases hskip : skipIdentity (some f) idc.proxy = true
    · have hpred : (idc.proxy.toLower == f.toLower) = false := by
        rw [Bool.eq_false_iff]
        intro hbeq
        rw [(hchar idc.proxy).mpr (by simpa using hbeq)] at hskip
        exact Bool.false_ne_true hskip
      simp only [scan_sqlite_database, hskip, if_true, List.filter_cons, hpred,
        Bool.false_eq_true, if_false]
      exact ih
    · have hskip' : skipIdentity (some f) idc.proxy = false := by
        simpa using hskip
      have hpred : (idc.proxy.toLower == f.toLower) = true := by
        simpa using (hchar idc.proxy).mp hskip'
      have hnone : skipIdentity none idc.proxy = false := by
        simp [skipIdentity, strTruthy]
      simp only [scan_sqlite_database, hskip', List.filter_cons, hpred, if_true,
        hnone, Bool.false_eq_true, if_false, ih]

/-- C7: The verbosity toggle and the single-category filter are purely
observational: two runs differing only in those settings produce identical
reports (confusion matrices, totals and metrics) for every identity; and the
evaluation is deterministic, so re-running over unchanged inputs yields the
identical result. -/
theorem c7_flags_observational (compile : String → Except YaraErr Rule)
    (v1 v2 : Bool) (lf1 lf2 sp : Option String) (rows : List Record)
    (ids : List IdentityCfg) :
    (scan_sqlite_database compile v1 lf1 sp rows ids).map (List.map Prod.snd)
      = (scan_sqlite_database compile v2 lf2 sp rows ids).map (List.map Prod.snd)
    ∧ scan_sqlite_database compile v1 lf1 sp rows ids
        = scan_sqlite_database compile v1 lf1 sp rows ids := by
  refine ⟨?_, rfl⟩
  induction ids with
  | nil => rfl
  | cons idc rest ih =>
    by_cases hskip : skipIdentity sp idc.proxy = true
    · simpa [scan_sqlite_database, hskip] using ih
    · have hskip' : skipIdentity sp idc.proxy = false := by simpa using hskip
      simp only [scan_sqlite_database, hskip', Bool.false_eq_true, if_false]
      cases hrt : load_yara_rules compile idc.ruleset.should_be_true with
      | error e => simp [hrt, Except.map, Except.bind, Bind.bind]
      | ok rt =>
        cases hrf : load_yara_rules compile idc.ruleset.should_be_false with
        | error e => simp [hrt, hrf, Except.map, Except.bind, Bind.bind]
        | ok rf =>
          have hcnt : (runPass v1 lf1 rt rf idc.ip idc.proxy rows).1
              = (runPass v2 lf2 rt rf idc.ip idc.proxy rows).1 := by
            rw [runPass_fst, runPass_fst]
          cases hrep : makeReport idc.proxy (runPass v1 lf1 rt rf idc.ip idc.proxy rows).1 with
          | error e =>
            have hrep2 : makeReport idc.proxy (runPass v2 lf2 rt rf idc.ip idc.proxy rows).1
                = Except.error e := by rw [← hcnt, hrep]
            simp [hrt, hrf, hrep, hrep2, Except.map, Except.bind, Bind.bind]
          | ok rep =>
            have hrep2 : makeReport idc.proxy (runPass v2 lf2 rt rf idc.ip idc.proxy rows).1
                = Except.ok rep := by rw [← hcnt, hrep]
            cases hr1 : scan_sqlite_database compile v1 lf1 sp rows rest with
            | error e =>
              have hr2 : scan_sqlite_database compile v2 lf2 sp rows rest
                  = Except.error e := by
                rw [hr1] at ih
                cases hr2' : scan_sqlite_database compile v2 lf2 sp rows rest with
                | error e' =>
                  rw [hr2'] at ih
                  simp only [Except.map] at ih
                  cases ih
                  rfl
                | ok l =>
                  rw [hr2'] at ih
                  simp [Except.map] at ih
              simp [hrt, hrf, hrep, hrep2, hr1, hr2, Except.map, Except.bind, Bind.bind]
            | ok l1 =>
              cases hr2 : scan_sqlite_database compile v2 lf2 sp rows rest with
              | error e =>
                rw [hr1, hr2] at ih
                simp [Except.map] at ih
              | ok l2 =>
                have hl : l1.map Prod.snd = l2.map Prod.snd := by
                  rw [hr1, hr2] at ih
                  simpa [Except.map] using ih
                simp [hrt, hrf, hrep, hrep2, hr1, hr2, Except.map, Except.bind,
                  Bind.bind, hl]

/-- C9: An invocation with fewer than the two required positional arguments
prints the usage message and exits with code 1, independently of the
configuration parser, the pattern compiler and the record store — nothing
is loaded, compiled or scanned. -/
theorem c9_usage_exit (argv : List String) (compile : String → Except YaraErr Rule)
    (rows : List Record) (parseCfg : String → List IdentityCfg)
    (hlen : argv.length < 3) :
    mainModel argv compile rows parseCfg = Except.error (usageMsg, 1) := by
  unfold mainModel
  rw [if_pos hlen]

/-- Witness for C9: a one-argument invocation. -/
theorem c9_usage_exit_witness :
    mainModel ["yara_rule_tester.py", "store.db"] (fun _ => Except.ok demoRuleMiss)
      [] (fun _ => []) = Except.error (usageMsg, 1) :=
  c9_usage_exit ["yara_rule_tester.py", "store.db"] (fun _ => Except.ok demoRuleMiss)
    [] (fun _ => []) (by decide)

/-- C10: The summary report divides each confusion-matrix cell by the
running total without a zero guard, so when the store yields zero rows the
report computation for an evaluated identity is a division by zero
(`ZeroDivisionError`); with at least one row the divisions are defined. -/
theorem c10_report_div_by_zero (v : Bool) (lf : Option String)
    (rt rf : List Rule) (gt px proxyName : String) :
    makeReport proxyName (runPass v lf rt rf gt px []).1
      = Except.error "ZeroDivisionError: division by zero" := by
  have hinit : (runPass v lf rt rf gt px []).1 = initCounters := rfl
  rw [hinit]
  simp [makeReport, finalizeMatrix, initCounters, precisionCalc, recallCalc,
    f1Calc, pydiv, Except.bind, Bind.bind]

end Claims

section CompileErrorLemmas

lemma yaraDiag_distinct (m m' : String) :
    yaraDiag (YaraErr.syntaxErr m) ≠ yaraDiag (YaraErr.otherErr m') := by
  intro h
  have hd : ("YARA syntax error: " ++ m).data = ("YARA error: " ++ m').data :=
    congrArg String.data h
  rw [String.data_append "YARA syntax error: " m,
    String.data_append "YARA error: " m'] at hd
  have h5 : (("YARA syntax error: ").data ++ m.data)[5]?
      = (("YARA error: ").data ++ m'.data)[5]? := by rw [hd]
  have e1 : (("YARA syntax error: ").data ++ m.data)[5]?
      = ("YARA syntax error: ").data[5]? :=
    List.getElem?_append_left (by decide)
  have e2 : (("YARA error: ").data ++ m'.data)[5]?
      = ("YARA error: ").data[5]? :=
    List.getElem?_append_left (by decide)
  rw [e1, e2] at h5
  exact absurd h5 (by decide)

lemma load_yara_rules_error_of_mem (compile : String → Except YaraErr Rule)
    (paths : List String) (p : String) (e : YaraErr)
    (hp : p ∈ paths) (he : compile p = Except.error e) :
    ∃ msg, load_yara_rules compile paths = Except.error msg := by
  induction paths with
  | nil => cases hp
  | cons q qs ih =>
    cases hcq : compile q with
    | error e' => exact ⟨yaraDiag e', by simp [load_yara_rules, hcq]⟩
    | ok rule =>
      rcases List.mem_cons.mp hp with rfl | hp'
      · rw [he] at hcq
        cases hcq
      · obtain ⟨msg, hmsg⟩ := ih hp'
        exact ⟨msg, by simp [load_yara_rules, hcq, hmsg]⟩

lemma scan_error_of_load_error (compile : String → Except YaraErr Rule)
    (v : Bool) (lf sp : Option String) (rows : List Record) :
    ∀ (ids : List IdentityCfg) (idc : IdentityCfg), idc ∈ ids →
      skipIdentity sp idc.proxy = false →
      ((∃ msg, load_yara_rules compile idc.ruleset.should_be_true = Except.error msg)
        ∨ (∃ msg, load_yara_rules compile idc.ruleset.should_be_false = Except.error msg)) →
      ∃ msg, scan_sqlite_database compile v lf sp rows ids = Except.error msg := by
  intro ids
  induction ids with
  | nil => intro idc hmem; cases hmem
  | cons j rest ih =>
    intro idc hmem heval hload
    rcases List.mem_cons.mp hmem with rfl | hmem'
    · rcases hload with ⟨msg, hm⟩ | ⟨msg, hm⟩
      · exact ⟨msg, by simp [scan_sqlite_database, heval, hm, Except.bind, Bind.bind]⟩
      · cases hrt : load_yara_rules compile idc.ruleset.should_be_true with
        | error e' =>
          exact ⟨e', by simp [scan_sqlite_database, heval, hrt, Except.bind, Bind.bind]⟩
        | ok rt =>
          exact ⟨msg, by simp [scan_sqlite_database, heval, hrt, hm, Except.bind, Bind.bind]⟩
    · by_cases hskip : skipIdentity sp j.proxy = true
      · obtain ⟨msg, hmsg⟩ := ih idc hmem' heval hload
        exact ⟨msg, by simp [scan_sqlite_database, hskip, hmsg]⟩
      · have hskip' : skipIdentity sp j.proxy = false := by simpa using hskip
        obtain ⟨msg, hmsg⟩ := ih idc hmem' heval hload
        cases hrt : load_yara_rules compile j.ruleset.should_be_true with
        | error e' =>
          exact ⟨e', by simp [scan_sqlite_database, hskip', hrt, Except.bind, Bind.bind]⟩
        | ok rt =>
          cases hrf : load_yara_rules compile j.ruleset.should_be_false with
          | error e' =>
            exact ⟨e', by
              simp [scan_sqlite_database, hskip', hrt, hrf, Except.bind, Bind.bind]⟩
          | ok rf =>
            cases hrep : makeReport j.proxy (runPass v lf rt rf j.ip j.proxy rows).1 with
            | error e' =>
              exact ⟨e', by
                simp [scan_sqlite_database, hskip', hrt, hrf, hrep, Except.bind, Bind.bind]⟩
            | ok rep =>
              exact ⟨msg, by
                simp [scan_sqlite_database, hskip', hrt, hrf, hrep, hmsg,
                  Except.bind, Bind.bind]⟩

end CompileErrorLemmas

section Claims2

/-- C8: If any pattern-source file of an evaluated identity's ruleset fails
to compile, the whole run aborts with a diagnostic (a non-zero exit),
producing no result list at all — not just skipping that identity — and the
diagnostic distinguishes a syntax error from any other compile error. -/
theorem c8_compile_error_aborts (compile : String → Except YaraErr Rule)
    (v : Bool) (lf sp : Option String) (rows : List Record)
    (ids : List IdentityCfg) (idc : IdentityCfg) (p : String) (e : YaraErr)
    (hmem : idc ∈ ids)
    (heval : skipIdentity sp idc.proxy = false)
    (hp : p ∈ idc.ruleset.should_be_true ++ idc.ruleset.should_be_false)
    (he : compile p = Except.error e) :
    (∃ msg, scan_sqlite_database compile v lf sp rows ids = Except.error msg)
    ∧ (∀ m, yaraDiag (YaraErr.syntaxErr m) = "YARA syntax error: " ++ m)
    ∧ (∀ m, yaraDiag (YaraErr.otherErr m) = "YARA error: " ++ m)
    ∧ (∀ m m', yaraDiag (YaraErr.syntaxErr m) ≠ yaraDiag (YaraErr.otherErr m')) := by
  refine ⟨?_, fun m => rfl, fun m => rfl, yaraDiag_distinct⟩
  rcases List.mem_append.mp hp with hpt | hpf
  · exact scan_error_of_load_error compile v lf sp rows ids idc hmem heval
      (Or.inl (load_yara_rules_error_of_mem compile _ p e hpt he))
  · exact scan_error_of_load_error compile v lf sp rows ids idc hmem heval
      (Or.inr (load_yara_rules_error_of_mem compile _ p e hpf he))

/-- A demonstration compiler that fails (with a syntax error) on the file
`bad.yar` and succeeds elsewhere. -/
def demoCompile : String → Except YaraErr Rule := fun path =>
  if path = "bad.yar" then Except.error (YaraErr.syntaxErr "boom")
  else Except.ok demoRuleMiss

/-- Witness for C8 at concrete inputs. -/
theorem c8_compile_error_aborts_witness :
    (∃ msg, scan_sqlite_database demoCompile false none none []
        [⟨"1.2.3.4", "Acme", ⟨["bad.yar"], []⟩⟩] = Except.error msg)
    ∧ (∀ m, yaraDiag (YaraErr.syntaxErr m) = "YARA syntax error: " ++ m)
    ∧ (∀ m, yaraDiag (YaraErr.otherErr m) = "YARA error: " ++ m)
    ∧ (∀ m m', yaraDiag (YaraErr.syntaxErr m) ≠ yaraDiag (YaraErr.otherErr m')) :=
  c8_compile_error_aborts demoCompile false none none []
    [⟨"1.2.3.4", "Acme", ⟨["bad.yar"], []⟩⟩] ⟨"1.2.3.4", "Acme", ⟨["bad.yar"], []⟩⟩
    "bad.yar" (YaraErr.syntaxErr "boom")
    (List.mem_singleton.mpr rfl) rfl (by simp) rfl

/-- Witness for C6 at concrete inputs: filter value `acme`, two identities
`Acme` and `Other`, one record. -/
theorem c6_proxy_name_filter_witness :
    (∀ name : String, skipIdentity (some "acme") name = false
        ↔ name.toLower = "acme".toLower)
    ∧ scan_sqlite_database demoCompile false none (some "acme")
        [⟨1, "a", some "hello", "1.2.3.4"⟩]
        [⟨"1.2.3.4", "Acme", ⟨["good.yar"], []⟩⟩, ⟨"5.6.7.8", "Other", ⟨["good.yar"], []⟩⟩]
      = scan_sqlite_database demoCompile false none none
          [⟨1, "a", some "hello", "1.2.3.4"⟩]
          ([⟨"1.2.3.4", "Acme", ⟨["good.yar"], []⟩⟩,
            ⟨"5.6.7.8", "Other", ⟨["good.yar"], []⟩⟩].filter
            (fun idc => idc.proxy.toLower == "acme".toLower)) :=
  c6_proxy_name_filter demoCompile false none "acme"
    [⟨1, "a", some "hello", "1.2.3.4"⟩]
    [⟨"1.2.3.4", "Acme", ⟨["good.yar"], []⟩⟩, ⟨"5.6.7.8", "Other", ⟨["good.yar"], []⟩⟩]
    (by decide)

end Claims2

end YaraRuleTester
